import Mathlib

/-!
Verification development for the cpo-grade grading dashboard
(src/web/js/cpo-grade.js) and the modal prompt module of the same
repository. JavaScript promises are embedded as settled outcomes
(a Q promise settles at most once); the settlement of a derived
promise is computed as a function of the outcomes of the underlying
remote calls. Numbers are Nat; strings are String.
-/

namespace Cpo

/-- Outcome of an already-settled promise or of a single remote call:
the wrapped value on resolution, or the error on rejection. -/
inductive Outcome (ε α : Type) where
  | resolved (v : α)
  | rejected (e : ε)
deriving DecidableEq

/-- Eventual settlement of a promise handed to a caller: it may resolve,
reject, or never settle at all (its deferred is never completed). -/
inductive Settlement (ε α : Type) where
  | resolved (v : α)
  | rejected (e : ε)
  | unsettled
deriving DecidableEq

/-- True exactly when a settlement is a rejection. -/
def isRejectedSettlement {ε α : Type} : Settlement ε α → Bool
  | Settlement.rejected _ => true
  | _ => false

/-- Settlement of the promise returned by promiseRetry (cpo-grade.js
lines 22-40), as a function of the settled outcome of the wrapped
promise. The first argument of promiseRetry is a single promise, not a
request factory, so every .then/.fail attachment observes the same
settled outcome. On resolution the deferred is resolved with the value
(line 25). On rejection with iteration >= max the deferred is rejected
with the error (line 28). On rejection with iteration < max the fail
handler first evaluates the backoff expression at line 31, which reads
the identifier n, bound nowhere in scope; the resulting ReferenceError
aborts the handler before the log and the setTimeout, so the outer
deferred is never settled. Even if that expression evaluated, the
recursive promiseRetry call at line 35 returns a fresh deferred promise
that is discarded, so no retry outcome could ever reach the outer
deferred; the outer promise would still never settle. -/
def promiseRetry {ε α : Type} (promise : Outcome ε α) (iteration max : Nat) :
    Settlement ε α :=
  match promise with
  | Outcome.resolved v => Settlement.resolved v
  | Outcome.rejected e =>
      if iteration ≥ max then Settlement.rejected e else Settlement.unsettled

/-- The numeric variable bindings in scope at cpo-grade.js line 31, the
backoff expression inside the fail handler of promiseRetry: the
parameters iteration and max. The other names in scope (promise,
deferred, err, timeToWait before its initialization, the module-level
api binding and the module functions) are not numbers, and no binding
anywhere in the file is named n. -/
def promiseRetryNumericBindings (iteration max : Nat) : List (String × Nat) :=
  [("iteration", iteration), ("max", max)]

/-- Looking an identifier up in an environment of numeric bindings;
none models the ReferenceError raised on an unbound identifier. -/
def lookupVar (env : List (String × Nat)) (x : String) : Option Nat :=
  (env.find? fun b => b.1 == x).map fun b => b.2

/-- The wait computed at cpo-grade.js line 31:
(Math.pow(2, n) * 1000) + Math.round(Math.random() * 1000), as a
function of the variable environment and of the sampled jitter. The
result is none when the identifier n is unbound in the environment. -/
def timeToWait (env : List (String × Nat)) (jitter : Nat) : Option Nat :=
  (lookupVar env "n").map fun n => 2 ^ n * 1000 + jitter

/-- A file or folder object returned by a remote listing, as used by the
grading code: getName() and getUniqueId(). -/
structure FileRef where
  name : String
  uniqueId : String
deriving DecidableEq

/-- The remote-storage API object published through window.storageAPI:
getFileById and getFilesInFolder, each returning a promise. The outcome
recorded here is the settled outcome of that underlying promise. -/
structure StorageAPI where
  getFileById : String → Outcome String FileRef
  getFilesInFolder : String → Outcome String (List FileRef)

/-- The message logged by getFile and getFilesInFolder when the api
binding is still unset (cpo-grade.js line 13). -/
def errNoApiMessage : String := "Attempted to get file(s) before storageAPI defined"

/-- What a call to getFile or getFilesInFolder hands back to its caller:
either a promise (with its eventual settlement), or the JavaScript value
undefined, produced by falling off the end of the function body. -/
inductive CallResult (α : Type) where
  | promiseOf (s : Settlement String α)
  | undefinedVal
deriving DecidableEq

/-- True exactly when a call result is a promise that rejects. -/
def isRejectedCallResult {α : Type} : CallResult α → Bool
  | CallResult.promiseOf (Settlement.rejected _) => true
  | _ => false

/-- getFile (cpo-grade.js lines 42-48): when the api binding is set,
return promiseRetry of api.getFileById(id) with iteration 0 and max 5;
otherwise log errNoApiMessage via console.error and return undefined.
The second component is the list of console.error messages emitted. -/
def getFile (api : Option StorageAPI) (id : String) :
    CallResult FileRef × List String :=
  match api with
  | some a => (CallResult.promiseOf (promiseRetry (a.getFileById id) 0 5), [])
  | none => (CallResult.undefinedVal, [errNoApiMessage])

/-- getFilesInFolder (cpo-grade.js lines 50-56): same shape as getFile,
over api.getFilesInFolder(folderId). -/
def getFilesInFolder (api : Option StorageAPI) (folderId : String) :
    CallResult (List FileRef) × List String :=
  match api with
  | some a => (CallResult.promiseOf (promiseRetry (a.getFilesInFolder folderId) 0 5), [])
  | none => (CallResult.undefinedVal, [errNoApiMessage])

/-- The folder-listing promise used inside gatherSubmissions, in the
steady state where the api binding is set: getFilesInFolder with a set
api, which is promiseRetry of the underlying call at iteration 0,
max 5. (With the api unset, gatherSubmissions would instead crash
synchronously calling .then on undefined.) -/
def listFolder (api : StorageAPI) (folderId : String) :
    Settlement String (List FileRef) :=
  promiseRetry (api.getFilesInFolder folderId) 0 5

/-- The dirs.find of cpo-grade.js lines 66-68: the first entry of a
student folder listing whose name is exactly final-submission. -/
def finalSubmissionDir (dirs : List FileRef) : Option FileRef :=
  dirs.find? fun d => d.name == "final-submission"

/-- The per-student promise chain of cpo-grade.js lines 63-86: list the
student folder, look for the final-submission child; when present, list
it and store its files (some files); when absent, the chain passes null
through (none) and stores nothing. A rejection or non-settlement of
either listing propagates through the chain. -/
def gatherStudent (api : StorageAPI) (student : FileRef) :
    Settlement String (Option (List FileRef)) :=
  match listFolder api student.uniqueId with
  | Settlement.resolved dirs =>
      match finalSubmissionDir dirs with
      | some dir =>
          match listFolder api dir.uniqueId with
          | Settlement.resolved files => Settlement.resolved (some files)
          | Settlement.rejected e => Settlement.rejected e
          | Settlement.unsettled => Settlement.unsettled
      | none => Settlement.resolved none
  | Settlement.rejected e => Settlement.rejected e
  | Settlement.unsettled => Settlement.unsettled

/-- Q.all over a list of promises: resolves with the list of values when
all resolve; rejects when any input rejects; otherwise stays pending. -/
def qAll {ε α : Type} : List (Settlement ε α) → Settlement ε (List α)
  | [] => Settlement.resolved []
  | p :: rest =>
      match p, qAll rest with
      | Settlement.resolved v, Settlement.resolved vs => Settlement.resolved (v :: vs)
      | Settlement.rejected e, _ => Settlement.rejected e
      | _, Settlement.rejected e => Settlement.rejected e
      | _, _ => Settlement.unsettled

/-- The submissions object accumulated by cpo-grade.js line 82: one
entry per student whose chain stored a non-null files value, keyed by
the student folder name, in the order of the root listing. Students
whose chain produced null (no final-submission child) get no entry at
all, because of the conditional at line 81. -/
def recordedSubmissions (students : List FileRef)
    (results : List (Option (List FileRef))) : List (String × List FileRef) :=
  (students.zip results).filterMap fun sr =>
    match sr.2 with
    | some files => some (sr.1.name, files)
    | none => none

/-- gatherSubmissions (cpo-grade.js lines 58-94): list the assignment
folder, fan out one chain per student, and resolve the returned deferred
with the accumulated submissions object once Q.all resolves (line 88).
When the upstream chain rejects, the fail handler at lines 89-91 only
calls console.error and never rejects the deferred, so the returned
promise stays unsettled; when any listing never settles (which is what
the broken promiseRetry produces for a failing call), Q.all never
settles and the returned promise again stays unsettled. -/
def gatherSubmissions (api : StorageAPI) (submissionsFolderId : String) :
    Settlement String (List (String × List FileRef)) :=
  match listFolder api submissionsFolderId with
  | Settlement.resolved students =>
      match qAll (students.map (gatherStudent api)) with
      | Settlement.resolved results =>
          Settlement.resolved (recordedSubmissions students results)
      | Settlement.rejected _ => Settlement.unsettled
      | Settlement.unsettled => Settlement.unsettled
  | Settlement.rejected _ => Settlement.unsettled
  | Settlement.unsettled => Settlement.unsettled

/-- A two-student assignment drive: alice with a final-submission folder
holding afiles, bob whose folder holds bdirs (whatever they are). -/
def twoStudentAPI (afiles bdirs : List FileRef) : StorageAPI :=
  { getFileById := fun _ => Outcome.rejected "not found",
    getFilesInFolder := fun id =>
      if id = "assignment-root" then
        Outcome.resolved [⟨"alice", "alice-folder"⟩, ⟨"bob", "bob-folder"⟩]
      else if id = "alice-folder" then
        Outcome.resolved [⟨"final-submission", "alice-final"⟩]
      else if id = "bob-folder" then Outcome.resolved bdirs
      else if id = "alice-final" then Outcome.resolved afiles
      else Outcome.rejected "no such folder" }

/-- A drive whose every listing call fails. -/
def failAPI : StorageAPI :=
  { getFileById := fun _ => Outcome.rejected "network failure",
    getFilesInFolder := fun _ => Outcome.rejected "network failure" }

/-- A drive where the assignment-folder listing succeeds but the
listing of the student folder itself fails. -/
def studentFailAPI : StorageAPI :=
  { getFileById := fun _ => Outcome.rejected "not found",
    getFilesInFolder := fun id =>
      if id = "assignment-root" then
        Outcome.resolved [⟨"alice", "alice-folder"⟩]
      else Outcome.rejected "network failure" }

/-- A drive where the assignment-folder and student-folder listings
succeed but the listing of the final-submission folder fails. -/
def finalFailAPI : StorageAPI :=
  { getFileById := fun _ => Outcome.rejected "not found",
    getFilesInFolder := fun id =>
      if id = "assignment-root" then
        Outcome.resolved [⟨"alice", "alice-folder"⟩]
      else if id = "alice-folder" then
        Outcome.resolved [⟨"final-submission", "alice-final"⟩]
      else Outcome.rejected "network failure" }

/-- One test outcome inside a check block, as read by generateJSONFile:
its tag (the JavaScript field named with a dollar sign, success for a
passing test), its code field, and its loc dict (kept opaque as one
string). -/
structure TestOutcome where
  tagName : String
  code : String
  loc : String
deriving DecidableEq

/-- One named check block with its ordered test results. -/
structure CheckBlock where
  name : String
  testResults : List TestOutcome
deriving DecidableEq

/-- The stored result of one target run, with the three shapes that
generateJSONFile distinguishes (cpo-grade.js lines 96-138): a success
result whose inner result is a Right holding check blocks; a success
result whose inner result is a Left (logged and exported as an empty
object); or a failure result with error name, stack and loc. -/
inductive RunResult where
  | successRight (checks : List CheckBlock)
  | successLeft
  | failureRes (errorName : String) (stack : String) (loc : String)
deriving DecidableEq

/-- A JSON-serializable value; objects keep their key order, the order
in which JSON.stringify emits them. -/
inductive JVal where
  | jbool (b : Bool)
  | jstr (s : String)
  | jarr (elems : List JVal)
  | jobj (fields : List (String × JVal))

/-- Assignment of a key on a JavaScript object: overwrite in place when
the key exists, else append, preserving insertion order. -/
def objInsert (kvs : List (String × JVal)) (k : String) (v : JVal) :
    List (String × JVal) :=
  if kvs.any fun p => p.1 == k then
    kvs.map fun p => if p.1 == k then (k, v) else p
  else kvs ++ [(k, v)]

/-- The toObject helper of cpo-grade.js lines 105-112. -/
def toObject (t : TestOutcome) : JVal :=
  JVal.jobj [("isSuccess", JVal.jbool (t.tagName == "success")),
             ("result", JVal.jstr t.tagName),
             ("code", JVal.jstr t.code),
             ("loc", JVal.jstr t.loc)]

/-- generateJSONFile (cpo-grade.js lines 96-138). -/
def generateJSONFile : RunResult → JVal
  | RunResult.successRight checks =>
      JVal.jobj (checks.foldl
        (fun o c => objInsert o c.name (JVal.jarr (c.testResults.map toObject)))
        [("isError", JVal.jbool false)])
  | RunResult.successLeft => JVal.jobj []
  | RunResult.failureRes en st loc =>
      JVal.jobj [("isError", JVal.jbool true),
                 ("errorName", JVal.jstr en),
                 ("stack", JVal.jstr st),
                 ("loc", JVal.jstr loc)]

/-- One runnable target as stored in the submissions mapping at export
time: its name (test, gold, coal-N) and the run result recorded by the
completion callback, if that target has been run. The eval closure is
irrelevant to the exporter and is omitted. -/
structure Target where
  name : String
  result : Option RunResult
deriving DecidableEq

/-- Lexicographic order on character lists, by code unit. -/
def charListLt : List Char → List Char → Bool
  | _, [] => false
  | [], _ :: _ => true
  | a :: as, b :: bs =>
      if a.toNat < b.toNat then true
      else if b.toNat < a.toNat then false
      else charListLt as bs

/-- The comparison JavaScript default sort applies to string keys:
lexicographic by code unit. -/
def stringLtJS (x y : String) : Bool := charListLt x.toList y.toList

/-- Insertion of a string into a lexicographically sorted list. -/
def insertString (x : String) : List String → List String
  | [] => [x]
  | y :: ys => if stringLtJS x y then x :: y :: ys else y :: insertString x ys

/-- Lexicographic sort of string keys, as sk.sort() and fk.sort() do in
generateJSON. -/
def sortStringsJS (l : List String) : List String := l.foldr insertString []

/-- Object.keys of a JavaScript array of length n: the decimal index
strings in order. -/
def jsArrayKeys (n : Nat) : List String := (List.range n).map fun i => toString i

/-- Decimal digits to a number, most significant first. -/
def parseNatChars : List Char → Nat → Option Nat
  | [], acc => some acc
  | c :: cs, acc =>
      if 48 ≤ c.toNat && c.toNat ≤ 57 then
        parseNatChars cs (acc * 10 + (c.toNat - 48))
      else none

/-- The array index denoted by a JavaScript index string such as the
keys produced by jsArrayKeys. -/
def jsStringToNat (s : String) : Option Nat :=
  match s.toList with
  | [] => none
  | cs => parseNatChars cs 0

/-- Property lookup on the submissions object. -/
def lookupStudent (submissions : List (String × Option (List Target)))
    (k : String) : Option (Option (List Target)) :=
  (submissions.find? fun p => p.1 == k).map fun p => p.2

/-- One step of the inner loop of generateJSON (cpo-grade.js lines
151-155): look the index string up in the targets array; when that
target has a recorded result, assign student[target.name] =
generateJSONFile(result); targets with no recorded result are
skipped. -/
def studentEntryStep (s : List Target) (acc : List (String × JVal))
    (key : String) : List (String × JVal) :=
  match s.get? ((jsStringToNat key).getD 0) with
  | some t =>
      match t.result with
      | some r => objInsert acc t.name (generateJSONFile r)
      | none => acc
  | none => acc

/-- The inner loop of generateJSON (cpo-grade.js lines 149-156) for one
non-null student value s: iterate the lexicographically sorted index
strings of the targets array, applying studentEntryStep. -/
def studentEntries (s : List Target) : List (String × JVal) :=
  (sortStringsJS (jsArrayKeys s.length)).foldl (studentEntryStep s) []

/-- One step of the outer loop of generateJSON (cpo-grade.js lines
145-159) for the student key k: build the per-student object (empty
when the stored value is null), then assign blob[k] = student
unconditionally at line 158. -/
def blobStep (submissions : List (String × Option (List Target)))
    (blob : List (String × JVal)) (k : String) : List (String × JVal) :=
  match lookupStudent submissions k with
  | some (some s) => objInsert blob k (JVal.jobj (studentEntries s))
  | _ => objInsert blob k (JVal.jobj [])

/-- generateJSON (cpo-grade.js lines 140-161): sort the student keys,
then run blobStep for each key, so every student key appears in the
output, those with a null value or no recorded results mapping to an
empty object. -/
def generateJSON (submissions : List (String × Option (List Target))) : JVal :=
  JVal.jobj ((sortStringsJS (submissions.map fun p => p.1)).foldl
    (blobStep submissions) [])

/-- A grading-table cell or header, tracked by the three CSS classes the
code toggles: def (runnable), dis (disabled during a run), fin
(finished). -/
structure Cell where
  hasDef : Bool
  hasDis : Bool
  hasFin : Bool
deriving DecidableEq

/-- Apply f to the element at index i, leaving the rest unchanged. -/
def setAt {α : Type} (l : List α) (i : Nat) (f : α → α) : List α :=
  match l, i with
  | [], _ => []
  | c :: cs, 0 => f c :: cs
  | c :: cs, k + 1 => c :: setAt cs k f

/-- The class switch applied by the selector of cpo-grade.js line 167 to
every cell still carrying def: add dis, remove def. -/
def disableCell (c : Cell) : Cell :=
  if c.hasDef then { c with hasDis := true, hasDef := false } else c

/-- The class switch applied by the selector of cpo-grade.js line 188 to
every cell carrying dis: add def, remove dis. -/
def enableCell (c : Cell) : Cell :=
  if c.hasDis then { c with hasDef := true, hasDis := false } else c

/-- The click handler built by makeTarget (cpo-grade.js lines 163-167)
acting on the table cells, the clicked cell at index i: first the
clicked cell drops def (line 166), then every cell or header still
carrying def switches def to dis (line 167). -/
def clickTarget (cells : List Cell) (i : Nat) : List Cell :=
  (setAt cells i fun c => { c with hasDef := false }).map disableCell

/-- The completion callback of makeTarget (cpo-grade.js lines 168-189):
the clicked cell at index i gains fin (line 187), then every cell
carrying dis switches dis back to def (line 188). -/
def completeTarget (cells : List Cell) (i : Nat) : List Cell :=
  (setAt cells i fun c => { c with hasFin := true }).map enableCell

/-- State of a Q promise as the prompt modules queue uses it. -/
inductive QPromiseState where
  | resolvedQ
  | pendingQ
deriving DecidableEq

/-- The module-level state of the prompt module relevant to prompt
visibility ordering: the value of the var promptQueue, the display
thunks already scheduled onto the microtask queue (identified by a
prompt number, in scheduling order), and the display thunks parked on a
pending promise. -/
structure PromptModuleState where
  promptQueue : QPromiseState
  scheduledShows : List Nat
  blockedShows : List Nat
deriving DecidableEq

/-- Module initialization, line 16 of the prompt module:
var promptQueue = Q(), an already-resolved promise. -/
def initPromptModule : PromptModuleState :=
  { promptQueue := QPromiseState.resolvedQ, scheduledShows := [], blockedShows := [] }

/-- The queue interaction of Prompt.prototype.show, line 73 of the
prompt module: promptQueue.then(displayThunk). Attaching .then to a
resolved promise schedules the callback immediately; attaching it to a
pending promise parks the callback. The promise returned by .then is
discarded, and promptQueue is assigned nowhere after line 16, so the
module variable is left exactly as it was. -/
def enqueueShow (m : PromptModuleState) (promptId : Nat) : PromptModuleState :=
  match m.promptQueue with
  | QPromiseState.resolvedQ =>
      { m with scheduledShows := m.scheduledShows ++ [promptId] }
  | QPromiseState.pendingQ =>
      { m with blockedShows := m.blockedShows ++ [promptId] }

/-- The order in which the event loop runs the scheduled display thunks;
each thunk sets the modal display to block (line 99 of the prompt
module) without waiting on any deferred, so this is the order in which
the prompts become visible. -/
def visibleOrder (m : PromptModuleState) : List Nat := m.scheduledShows

/-- A JavaScript value as resolved into a prompt deferred: null (the
dismissal resolution), undefined (the .val() of an empty selection), or
a string (the checked radio value). -/
inductive JSVal where
  | jsNull
  | jsUndef
  | jsStr (s : String)
deriving DecidableEq

/-- The configuration handed to the Prompt constructor: its style, the
value fields of its options array, and the hideSubmit flag. -/
structure PromptOptions where
  style : String
  optionValues : List String
  hideSubmit : Bool
deriving DecidableEq

/-- State of one Prompt instance: its configuration, whether
this.deferred is set (a show call outstanding), the value the current
deferred was resolved with (if resolved), and the value of the checked
radio input in the modal, if any. -/
structure PromptInst where
  style : String
  optionValues : List String
  hideSubmit : Bool
  deferredSet : Bool
  resolvedValue : Option JSVal
  checked : Option String
deriving DecidableEq

/-- The Prompt constructor (prompt module lines 31-49): throws Invalid
Prompt Options unless the style is radio or tiles and the options array
is nonempty; otherwise produces a fresh instance with no deferred. -/
def mkPrompt (o : PromptOptions) : Except String PromptInst :=
  if (o.style != "radio" && o.style != "tiles") || o.optionValues.length == 0 then
    Except.error "Invalid Prompt Options"
  else
    Except.ok { style := o.style, optionValues := o.optionValues,
                hideSubmit := o.hideSubmit, deferredSet := false,
                resolvedValue := none, checked := none }

/-- The radio checked by populateModal (prompt module line 174): the
first option element holds the first radio, which gets checked; a tiles
prompt renders no radio inputs, so nothing is checked. -/
def populateChecked (p : PromptInst) : Option String :=
  if p.style == "radio" then p.optionValues.head? else none

/-- Prompt.prototype.show (prompt module lines 65-108): throws Already
showing prompt when this.deferred is already set (line 67); otherwise
creates a fresh deferred and (through the queue, which never actually
waits) displays the modal, populating it so the first radio is
checked. -/
def showPrompt (p : PromptInst) : Except String PromptInst :=
  if p.deferredSet then Except.error "Already showing prompt"
  else
    Except.ok { p with
                deferredSet := true, resolvedValue := none,
                checked := populateChecked p }

/-- The user checking the radio carrying value v; the DOM only offers
radios rendered from the options array of a radio-style prompt. -/
def selectRadio (p : PromptInst) (v : String) : PromptInst :=
  if p.style == "radio" && p.optionValues.contains v then
    { p with checked := some v }
  else p

/-- Prompt.prototype.onClose (prompt module lines 183-189): hide the
modal, clear it, resolve the deferred with null, delete the deferred
and promise fields. When this.deferred is already deleted, the member
access this.deferred.resolve throws a TypeError instead. -/
def onClose (p : PromptInst) : Except String PromptInst :=
  if p.deferredSet then
    Except.ok { p with deferredSet := false, resolvedValue := some JSVal.jsNull }
  else Except.error "TypeError: this.deferred is undefined"

/-- The retval read by onSubmit (prompt module line 195): the value of
the checked radio, or undefined when no radio is checked. -/
def checkedRadioVal (p : PromptInst) : JSVal :=
  match p.checked with
  | some v => JSVal.jsStr v
  | none => JSVal.jsUndef

/-- Prompt.prototype.onSubmit (prompt module lines 194-201): read the
checked radio value, hide and clear the modal, resolve the deferred
with it, delete the deferred and promise fields; a TypeError when
this.deferred is already deleted. -/
def onSubmit (p : PromptInst) : Except String PromptInst :=
  if p.deferredSet then
    Except.ok { p with
                deferredSet := false,
                resolvedValue := some (checkedRadioVal p) }
  else Except.error "TypeError: this.deferred is undefined"

/-- The user actions that can end a shown prompt. -/
inductive UserEvent where
  | closeButton
  | outsideClick
  | escapeKey
  | submitClick
deriving DecidableEq

/-- Event dispatch as wired by show (prompt module lines 79-96): the
close button and the Escape key call onClose unconditionally; the
outside click handler calls onClose only when this.deferred is set
(line 84), else does nothing; the submit button calls onSubmit. -/
def dispatchEvent (p : PromptInst) (e : UserEvent) : Except String PromptInst :=
  match e with
  | UserEvent.closeButton => onClose p
  | UserEvent.outsideClick => if p.deferredSet then onClose p else Except.ok p
  | UserEvent.escapeKey => onClose p
  | UserEvent.submitClick => onSubmit p

/-- The student keys present in a resolved submissions mapping. -/
def submissionKeys : Settlement String (List (String × List FileRef)) → List String
  | Settlement.resolved l => l.map fun p => p.1
  | _ => []

/-- A stored run result: one check block t1 with one passing test. -/
def runResultA : RunResult :=
  RunResult.successRight [⟨"t1", [⟨"success", "1 + 1", "locA"⟩]⟩]

/-- A stored run result: a failed run. -/
def runResultB : RunResult := RunResult.failureRes "runtime-err" "stacktext" "locB"

/-- A submissions mapping at export time: bob with null targets, alice
with a run test target, a run gold target and a never-run coal-0
target. -/
def submissionsEx : List (String × Option (List Target)) :=
  [("bob", none),
   ("alice", some [⟨"test", some runResultA⟩, ⟨"gold", some runResultB⟩,
                   ⟨"coal-0", none⟩])]

/-- A valid radio prompt configuration. -/
def promptOptionsEx : PromptOptions :=
  { style := "radio", optionValues := ["use-url", "copy-image"], hideSubmit := false }

/-- The instance the Prompt constructor builds from promptOptionsEx. -/
def promptFreshEx : PromptInst :=
  { style := "radio", optionValues := ["use-url", "copy-image"],
    hideSubmit := false, deferredSet := false, resolvedValue := none,
    checked := none }

/-- promptFreshEx after show: deferred set, first radio checked. -/
def promptShownEx : PromptInst :=
  { style := "radio", optionValues := ["use-url", "copy-image"],
    hideSubmit := false, deferredSet := true, resolvedValue := none,
    checked := some "use-url" }

/-- promptShownEx after onClose: deferred cleared, resolved null. -/
def promptClosedEx : PromptInst :=
  { style := "radio", optionValues := ["use-url", "copy-image"],
    hideSubmit := false, deferredSet := false,
    resolvedValue := some JSVal.jsNull, checked := some "use-url" }

/-- A grading table with two runnable cells and one finished cell. -/
def cellsEx : List Cell := [⟨true, false, false⟩, ⟨true, false, false⟩, ⟨false, false, true⟩]

/-- Index access after setAt at a different index is unchanged. -/
theorem setAt_get_ne {α : Type} (l : List α) (i j : Nat) (f : α → α) (h : j ≠ i) :
    (setAt l i f).get? j = l.get? j := by
  induction l generalizing i j with
  | nil => simp [setAt]
  | cons c cs ih =>
      cases i with
      | zero =>
          cases j with
          | zero => exact absurd rfl h
          | succ m => simp [setAt]
      | succ k =>
          cases j with
          | zero => simp [setAt]
          | succ m =>
              simp only [setAt, List.get?]
              exact ih k m (fun hmk => h (by rw [hmk]))

/-- Index access after setAt at the same index applies the update. -/
theorem setAt_get_eq {α : Type} (l : List α) (i : Nat) (f : α → α) :
    (setAt l i f).get? i = (l.get? i).map f := by
  induction l generalizing i with
  | nil => simp [setAt]
  | cons c cs ih =>
      cases i with
      | zero => simp [setAt]
      | succ k => simpa [setAt] using ih k

/-- A successful showPrompt leaves the deferred set on the result. -/
theorem showPrompt_ok_deferred (p q : PromptInst)
    (hshow : showPrompt p = Except.ok q) : q.deferredSet = true := by
  unfold showPrompt at hshow
  cases hp : p.deferredSet with
  | true => rw [hp] at hshow; simp at hshow
  | false =>
      rw [hp] at hshow
      simp at hshow
      rw [← hshow]

/-- Unfolding of qAll on a cons cell. -/
theorem qAll_cons {ε α : Type} (p : Settlement ε α) (rest : List (Settlement ε α)) :
    qAll (p :: rest) =
      match p, qAll rest with
      | Settlement.resolved v, Settlement.resolved vs => Settlement.resolved (v :: vs)
      | Settlement.rejected e, _ => Settlement.rejected e
      | _, Settlement.rejected e => Settlement.rejected e
      | _, _ => Settlement.unsettled := rfl

/-- Q.all resolves only when every member promise resolved. -/
theorem qAll_resolved_members {ε α : Type} (l : List (Settlement ε α)) (vs : List α)
    (h : qAll l = Settlement.resolved vs) :
    ∀ x ∈ l, ∃ v, x = Settlement.resolved v := by
  induction l generalizing vs with
  | nil => intro x hx; cases hx
  | cons p rest ih =>
      intro x hx
      rw [qAll_cons] at h
      cases hp : p with
      | resolved v =>
          rw [hp] at h
          cases hqr : qAll rest with
          | resolved vs2 =>
              rcases List.mem_cons.mp hx with hxp | hxr
              · exact ⟨v, by rw [hxp, hp]⟩
              · exact ih vs2 hqr x hxr
          | rejected e => rw [hqr] at h; exact Settlement.noConfusion h
          | unsettled => rw [hqr] at h; exact Settlement.noConfusion h
      | rejected e =>
          rw [hp] at h
          cases hqr : qAll rest with
          | resolved vs2 => rw [hqr] at h; exact Settlement.noConfusion h
          | rejected e2 => rw [hqr] at h; exact Settlement.noConfusion h
          | unsettled => rw [hqr] at h; exact Settlement.noConfusion h
      | unsettled =>
          rw [hp] at h
          cases hqr : qAll rest with
          | resolved vs2 => rw [hqr] at h; exact Settlement.noConfusion h
          | rejected e => rw [hqr] at h; exact Settlement.noConfusion h
          | unsettled => rw [hqr] at h; exact Settlement.noConfusion h

/-- A failing listing of the student folder itself leaves that
student's chain unsettled (the broken retry wrapper swallows the
rejection). -/
theorem gatherStudent_unsettled_student_listing (api : StorageAPI) (student : FileRef)
    (e : String) (h : api.getFilesInFolder student.uniqueId = Outcome.rejected e) :
    gatherStudent api student = Settlement.unsettled := by
  simp [gatherStudent, listFolder, promiseRetry, h]

/-- A failing listing of the located final-submission folder leaves
that student's chain unsettled. -/
theorem gatherStudent_unsettled_final_listing (api : StorageAPI) (student : FileRef)
    (dirs : List FileRef) (dir : FileRef) (e : String)
    (h1 : api.getFilesInFolder student.uniqueId = Outcome.resolved dirs)
    (h2 : finalSubmissionDir dirs = some dir)
    (h3 : api.getFilesInFolder dir.uniqueId = Outcome.rejected e) :
    gatherStudent api student = Settlement.unsettled := by
  simp [gatherStudent, listFolder, promiseRetry, h1, h2, h3]

/-- When any one student chain is unsettled, the fan-in over Q.all
cannot resolve, and the deferred of gatherSubmissions - resolved only
on the success path and never rejected by the logging-only fail
handler - is never completed. -/
theorem gatherSubmissions_unsettled_of_member (api : StorageAPI) (folderId : String)
    (students : List FileRef) (student : FileRef)
    (hroot : api.getFilesInFolder folderId = Outcome.resolved students)
    (hmem : student ∈ students)
    (hgs : gatherStudent api student = Settlement.unsettled) :
    gatherSubmissions api folderId = Settlement.unsettled := by
  have hx : Settlement.unsettled ∈ students.map (gatherStudent api) := by
    rw [← hgs]
    exact List.mem_map_of_mem _ hmem
  have hnr : ∀ vs, qAll (students.map (gatherStudent api)) ≠ Settlement.resolved vs := by
    intro vs hq
    rcases qAll_resolved_members _ vs hq Settlement.unsettled hx with ⟨v, hv⟩
    exact Settlement.noConfusion hv
  have hred : gatherSubmissions api folderId =
      match qAll (students.map (gatherStudent api)) with
      | Settlement.resolved results =>
          Settlement.resolved (recordedSubmissions students results)
      | Settlement.rejected e2 => Settlement.unsettled
      | Settlement.unsettled => Settlement.unsettled := by
    unfold gatherSubmissions listFolder promiseRetry
    rw [hroot]
  rw [hred]
  cases hq : qAll (students.map (gatherStudent api)) with
  | resolved vs => exact absurd hq (hnr vs)
  | rejected e2 => rfl
  | unsettled => rfl

/-- C1: the claim says a promiseRetry wrapper resolves with the success
value after k failed attempts (k below max) and rejects with the last
failure after max retries. The code disagrees: the wrapped argument is
one settled promise, and on its rejection (with iteration 0 below
max 5) the fail handler dies on the unbound identifier n while the
recursive call would in any case resolve a discarded fresh deferred, so
the promise returned to the caller never settles at all; only an
immediately resolved request reaches the caller. -/
theorem promiseRetry_wrapper_never_settles_on_failure :
    promiseRetry (Outcome.rejected "network failure" : Outcome String (List FileRef)) 0 5 =
      Settlement.unsettled ∧
    promiseRetry (Outcome.resolved ([⟨"code.arr", "f1"⟩] : List FileRef) :
        Outcome String (List FileRef)) 0 5 =
      Settlement.resolved [⟨"code.arr", "f1"⟩] := ⟨rfl, rfl⟩

/-- C2: the claim (and the comment in the source) say the prompt queue
makes a second show wait until the first prompt resolves. The code
disagrees: promptQueue is the already-resolved Q() and is never
reassigned (line 73 discards the promise returned by .then), so two
show calls in a row schedule both display thunks at once - the second
prompt is displayed, in order [1, 2], although the first prompt has not
been resolved by anything. -/
theorem promptQueue_fifo_violated :
    visibleOrder (enqueueShow (enqueueShow initPromptModule 1) 2) = [1, 2] ∧
    (enqueueShow (enqueueShow initPromptModule 1) 2).promptQueue =
      QPromiseState.resolvedQ := ⟨rfl, rfl⟩

/-- C3 counterexample: with students alice and bob where bob has no
final-submission folder, gatherSubmissions resolves with a mapping that
holds only the key alice; bob is dropped entirely rather than mapped to
null as the claim states. -/
theorem gatherSubmissions_drops_missing_student :
    gatherSubmissions (twoStudentAPI [⟨"code.arr", "f1"⟩] [⟨"hw", "x"⟩]) "assignment-root" =
      Settlement.resolved [("alice", [⟨"code.arr", "f1"⟩])] ∧
    (submissionKeys (gatherSubmissions (twoStudentAPI [⟨"code.arr", "f1"⟩] [⟨"hw", "x"⟩])
        "assignment-root")).contains "bob" = false := ⟨rfl, rfl⟩

/-- C3 as amended: a student folder with no final-submission child gets
no key at all in the resolved mapping (the conditional at line 81 of
cpo-grade.js skips the null files value), and the other students are
still gathered. -/
theorem gatherSubmissions_missing_final_submission (afiles bdirs : List FileRef)
    (hb : finalSubmissionDir bdirs = none) :
    gatherSubmissions (twoStudentAPI afiles bdirs) "assignment-root" =
      Settlement.resolved [("alice", afiles)] := by
  have hA : gatherStudent (twoStudentAPI afiles bdirs) ⟨"alice", "alice-folder"⟩ =
      Settlement.resolved (some afiles) := rfl
  have hB : gatherStudent (twoStudentAPI afiles bdirs) ⟨"bob", "bob-folder"⟩ =
      Settlement.resolved none := by
    simp [gatherStudent, listFolder, twoStudentAPI, promiseRetry, hb]
  have hmain : gatherSubmissions (twoStudentAPI afiles bdirs) "assignment-root" =
      match qAll [gatherStudent (twoStudentAPI afiles bdirs) ⟨"alice", "alice-folder"⟩,
                  gatherStudent (twoStudentAPI afiles bdirs) ⟨"bob", "bob-folder"⟩] with
      | Settlement.resolved results =>
          Settlement.resolved (recordedSubmissions
            [⟨"alice", "alice-folder"⟩, ⟨"bob", "bob-folder"⟩] results)
      | Settlement.rejected e => Settlement.unsettled
      | Settlement.unsettled => Settlement.unsettled := rfl
  rw [hmain, hA, hB]
  rfl

/-- C3 witness: the amended theorem applied to concrete folders. -/
theorem gatherSubmissions_missing_final_submission_witness :
    finalSubmissionDir [⟨"hw", "x"⟩] = none ∧
    gatherSubmissions (twoStudentAPI [⟨"code.arr", "f1"⟩] [⟨"hw", "x"⟩]) "assignment-root" =
      Settlement.resolved [("alice", [⟨"code.arr", "f1"⟩])] :=
  ⟨rfl, gatherSubmissions_missing_final_submission [⟨"code.arr", "f1"⟩] [⟨"hw", "x"⟩] rfl⟩

/-- C4 counterexample: when every remote listing fails, the promise
returned by gatherSubmissions is not rejected - it never settles. -/
theorem gatherSubmissions_never_rejects :
    isRejectedSettlement (gatherSubmissions failAPI "assignment-root") = false ∧
    gatherSubmissions failAPI "assignment-root" = Settlement.unsettled := ⟨rfl, rfl⟩

/-- C4 as amended: whichever of the remote listing calls made during
gatherSubmissions fails - the assignment-folder listing, the listing of
any student folder reached through it, or the listing of a located
final-submission folder - the promise returned by gatherSubmissions
remains forever unsettled: the fail handler at lines 89-91 of
cpo-grade.js only logs and never rejects the deferred (and the broken
retry wrapper already swallows the rejection one level down), so the
caller sees neither a rejection nor partial data. -/
theorem gatherSubmissions_unsettled_on_failure (api : StorageAPI) (folderId e : String) :
    (api.getFilesInFolder folderId = Outcome.rejected e →
        gatherSubmissions api folderId = Settlement.unsettled) ∧
    (∀ students student,
        api.getFilesInFolder folderId = Outcome.resolved students →
        student ∈ students →
        api.getFilesInFolder student.uniqueId = Outcome.rejected e →
        gatherSubmissions api folderId = Settlement.unsettled) ∧
    (∀ students student dirs dir,
        api.getFilesInFolder folderId = Outcome.resolved students →
        student ∈ students →
        api.getFilesInFolder student.uniqueId = Outcome.resolved dirs →
        finalSubmissionDir dirs = some dir →
        api.getFilesInFolder dir.uniqueId = Outcome.rejected e →
        gatherSubmissions api folderId = Settlement.unsettled) := by
  refine ⟨?_, ?_, ?_⟩
  · intro h
    unfold gatherSubmissions listFolder promiseRetry
    rw [h]
    rfl
  · intro students student hroot hmem hfail
    exact gatherSubmissions_unsettled_of_member api folderId students student hroot hmem
      (gatherStudent_unsettled_student_listing api student e hfail)
  · intro students student dirs dir hroot hmem h1 h2 h3
    exact gatherSubmissions_unsettled_of_member api folderId students student hroot hmem
      (gatherStudent_unsettled_final_listing api student dirs dir e h1 h2 h3)

/-- C4 witness: the amended theorem applied to three concrete drives,
one for each failing listing site - the assignment folder itself, a
student folder, and a final-submission folder. -/
theorem gatherSubmissions_unsettled_on_failure_witness :
    gatherSubmissions failAPI "assignment-root" = Settlement.unsettled ∧
    gatherSubmissions studentFailAPI "assignment-root" = Settlement.unsettled ∧
    gatherSubmissions finalFailAPI "assignment-root" = Settlement.unsettled :=
  ⟨(gatherSubmissions_unsettled_on_failure failAPI "assignment-root" "network failure").1 rfl,
   (gatherSubmissions_unsettled_on_failure studentFailAPI "assignment-root"
      "network failure").2.1 [⟨"alice", "alice-folder"⟩] ⟨"alice", "alice-folder"⟩
      rfl (by decide) rfl,
   (gatherSubmissions_unsettled_on_failure finalFailAPI "assignment-root"
      "network failure").2.2 [⟨"alice", "alice-folder"⟩] ⟨"alice", "alice-folder"⟩
      [⟨"final-submission", "alice-final"⟩] ⟨"final-submission", "alice-final"⟩
      rfl (by decide) rfl rfl rfl⟩

/-- C5: the claim says a retried attempt waits exactly 2 to the power
attempt times 1000 milliseconds plus jitter, a well-defined finite
number. The code disagrees: the backoff expression at line 31 of
cpo-grade.js reads the identifier n, which is bound nowhere in the
enclosing scopes (the numeric bindings there are iteration and max), so
its evaluation raises a ReferenceError and no wait time is ever
computed, whatever the attempt index and the sampled jitter. -/
theorem timeToWait_n_unbound (iteration max jitter : Nat) :
    timeToWait (promiseRetryNumericBindings iteration max) jitter = none ∧
    lookupVar (promiseRetryNumericBindings iteration max) "n" = none := ⟨rfl, rfl⟩

/-- C5 witness: the theorem applied at attempt 0, max 5, jitter 500. -/
theorem timeToWait_n_unbound_witness :
    timeToWait (promiseRetryNumericBindings 0 5) 500 = none ∧
    lookupVar (promiseRetryNumericBindings 0 5) "n" = none :=
  timeToWait_n_unbound 0 5 500

/-- C6 counterexample: a getFile or getFilesInFolder call made before
the api binding is set does not hand the caller a rejected promise; it
hands back undefined. -/
theorem getFile_before_api_not_rejected :
    isRejectedCallResult (getFile none "suite-file-id").1 = false ∧
    isRejectedCallResult (getFilesInFolder none "assignment-root").1 = false ∧
    (getFile none "suite-file-id").1 = CallResult.undefinedVal := ⟨rfl, rfl, rfl⟩

/-- C6 as amended: every getFile or getFilesInFolder call made while
the api binding is unset logs the message of line 13 of cpo-grade.js
through console.error and returns undefined - no promise at all, so the
caller cannot observe a rejection. -/
theorem getFile_before_api_logs_and_undefined (id folderId : String) :
    getFile none id = (CallResult.undefinedVal, [errNoApiMessage]) ∧
    getFilesInFolder none folderId = (CallResult.undefinedVal, [errNoApiMessage]) :=
  ⟨rfl, rfl⟩

/-- C6 witness: the amended theorem applied to concrete ids. -/
theorem getFile_before_api_logs_and_undefined_witness :
    getFile none "suite-file-id" = (CallResult.undefinedVal, [errNoApiMessage]) ∧
    getFilesInFolder none "assignment-root" =
      (CallResult.undefinedVal, [errNoApiMessage]) :=
  getFile_before_api_logs_and_undefined "suite-file-id" "assignment-root"

/-- C7: for a validly constructed Prompt that has been shown, submit
resolves the pending deferred with the selected radio value - both for
whatever option the user has selected through selectRadio (any value
among the configured options) and for the auto-checked default - while
the close button, a click outside the modal and the Escape key each
resolve it with null; and these are the only resolution paths - once
one of them has completed the prompt (deferred cleared), any later
event either throws or leaves the instance exactly unchanged, so the
deferred is resolved at most once. -/
theorem prompt_show_resolution_paths (o : PromptOptions) (p q : PromptInst)
    (hmk : mkPrompt o = Except.ok p) (hshow : showPrompt p = Except.ok q) :
    (∀ v, q.style = "radio" → q.optionValues.contains v = true →
        dispatchEvent (selectRadio q v) UserEvent.submitClick =
          Except.ok { selectRadio q v with
                      deferredSet := false,
                      resolvedValue := some (JSVal.jsStr v) }) ∧
    (∀ v, q.checked = some v →
        dispatchEvent q UserEvent.submitClick =
          Except.ok { q with
                      deferredSet := false,
                      resolvedValue := some (JSVal.jsStr v) }) ∧
    (dispatchEvent q UserEvent.closeButton =
        Except.ok { q with deferredSet := false, resolvedValue := some JSVal.jsNull }) ∧
    (dispatchEvent q UserEvent.outsideClick =
        Except.ok { q with deferredSet := false, resolvedValue := some JSVal.jsNull }) ∧
    (dispatchEvent q UserEvent.escapeKey =
        Except.ok { q with deferredSet := false, resolvedValue := some JSVal.jsNull }) ∧
    (∀ e q2, dispatchEvent q e = Except.ok q2 → q2.deferredSet = false ∧
        ∀ e2 q3, dispatchEvent q2 e2 = Except.ok q3 → q3 = q2) := by
  have hq : q.deferredSet = true := showPrompt_ok_deferred p q hshow
  refine ⟨?_, ?_, ?_, ?_, ?_, ?_⟩
  · intro v hstyle hcont
    have hsel : selectRadio q v = { q with checked := some v } := by
      unfold selectRadio
      rw [hstyle, hcont]
      rfl
    rw [hsel]
    simp [dispatchEvent, onSubmit, hq, checkedRadioVal]
  · intro v hv
    simp [dispatchEvent, onSubmit, hq, checkedRadioVal, hv]
  · simp [dispatchEvent, onClose, hq]
  · simp [dispatchEvent, onClose, hq]
  · simp [dispatchEvent, onClose, hq]
  · intro e q2 h2
    have hq2 : q2.deferredSet = false := by
      cases e <;> simp [dispatchEvent, onClose, onSubmit, hq] at h2 <;>
        rw [← h2]
    refine ⟨hq2, ?_⟩
    intro e2 q3 h3
    cases e2 with
    | closeButton => simp [dispatchEvent, onClose, hq2] at h3
    | outsideClick =>
        simp [dispatchEvent, hq2] at h3
        exact h3.symm
    | escapeKey => simp [dispatchEvent, onClose, hq2] at h3
    | submitClick => simp [dispatchEvent, onSubmit, hq2] at h3

/-- C7 witness: the theorem applied to a concrete shown radio prompt,
with the selection case additionally discharged at the non-default
option copy-image. -/
theorem prompt_show_resolution_paths_witness :
    ((∀ v, promptShownEx.style = "radio" →
        promptShownEx.optionValues.contains v = true →
        dispatchEvent (selectRadio promptShownEx v) UserEvent.submitClick =
          Except.ok { selectRadio promptShownEx v with
                      deferredSet := false,
                      resolvedValue := some (JSVal.jsStr v) }) ∧
    (∀ v, promptShownEx.checked = some v →
        dispatchEvent promptShownEx UserEvent.submitClick =
          Except.ok { promptShownEx with
                      deferredSet := false,
                      resolvedValue := some (JSVal.jsStr v) }) ∧
    (dispatchEvent promptShownEx UserEvent.closeButton =
        Except.ok { promptShownEx with
                    deferredSet := false, resolvedValue := some JSVal.jsNull }) ∧
    (dispatchEvent promptShownEx UserEvent.outsideClick =
        Except.ok { promptShownEx with
                    deferredSet := false, resolvedValue := some JSVal.jsNull }) ∧
    (dispatchEvent promptShownEx UserEvent.escapeKey =
        Except.ok { promptShownEx with
                    deferredSet := false, resolvedValue := some JSVal.jsNull }) ∧
    (∀ e q2, dispatchEvent promptShownEx e = Except.ok q2 → q2.deferredSet = false ∧
        ∀ e2 q3, dispatchEvent q2 e2 = Except.ok q3 → q3 = q2)) ∧
    dispatchEvent (selectRadio promptShownEx "copy-image") UserEvent.submitClick =
      Except.ok { selectRadio promptShownEx "copy-image" with
                  deferredSet := false,
                  resolvedValue := some (JSVal.jsStr "copy-image") } :=
  ⟨prompt_show_resolution_paths promptOptionsEx promptFreshEx promptShownEx rfl rfl,
   (prompt_show_resolution_paths promptOptionsEx promptFreshEx promptShownEx rfl rfl).1
     "copy-image" rfl rfl⟩

/-- C8: a Prompt instance has at most one outstanding show - while a
show is pending, a second show throws Already showing prompt; and after
either dismissal (onClose) or submission (onSubmit) the pending state
is cleared, so a later show succeeds again. -/
theorem prompt_single_outstanding_show (p q r : PromptInst)
    (hshow : showPrompt p = Except.ok q)
    (hdone : onClose q = Except.ok r ∨ onSubmit q = Except.ok r) :
    showPrompt q = Except.error "Already showing prompt" ∧
    r.deferredSet = false ∧
    showPrompt r = Except.ok { r with
                               deferredSet := true, resolvedValue := none,
                               checked := populateChecked r } := by
  have hq : q.deferredSet = true := showPrompt_ok_deferred p q hshow
  have hr : r.deferredSet = false := by
    cases hdone with
    | inl h => simp [onClose, hq] at h; rw [← h]
    | inr h => simp [onSubmit, hq] at h; rw [← h]
  refine ⟨by simp [showPrompt, hq], hr, by simp [showPrompt, hr]⟩

/-- C8 witness: the theorem applied to a concrete shown and then
closed prompt. -/
theorem prompt_single_outstanding_show_witness :
    showPrompt promptShownEx = Except.error "Already showing prompt" ∧
    promptClosedEx.deferredSet = false ∧
    showPrompt promptClosedEx =
      Except.ok { promptClosedEx with
                  deferredSet := true, resolvedValue := none,
                  checked := populateChecked promptClosedEx } :=
  prompt_single_outstanding_show promptFreshEx promptShownEx promptClosedEx rfl
    (Or.inl rfl)

/-- C9 counterexample: exporting a mapping where bob holds null and
alice holds a run test target, a run gold target and a never-run coal-0
target emits bob with an empty object (the claim says students with no
recorded result are omitted) and emits the file keys in target-array
order, test before gold, although gold sorts lexicographically before
test. -/
theorem generateJSON_emits_empty_students_unsorted_files :
    generateJSON submissionsEx =
      JVal.jobj [("alice", JVal.jobj [("test", generateJSONFile runResultA),
                                      ("gold", generateJSONFile runResultB)]),
                 ("bob", JVal.jobj [])] ∧
    stringLtJS "gold" "test" = true := ⟨rfl, rfl⟩

/-- C9 as amended: generateJSON is deterministic and emits student keys
in lexicographically sorted order, but every student key is emitted -
students with a null value or no recorded results map to an empty
object rather than being omitted; within a student, targets with no
recorded result are omitted, and the remaining entries are keyed by
target name in the order of the sorted index strings of the targets
array (array order for at most ten targets), not sorted by name. -/
theorem generateJSON_order_and_omission (r1 r2 : RunResult) :
    generateJSON [("bob", none),
      ("alice", some [⟨"test", some r1⟩, ⟨"gold", some r2⟩, ⟨"coal-0", none⟩])] =
    JVal.jobj [("alice", JVal.jobj [("test", generateJSONFile r1),
                                    ("gold", generateJSONFile r2)]),
               ("bob", JVal.jobj [])] := by
  have hlen : ([⟨"test", some r1⟩, ⟨"gold", some r2⟩, ⟨"coal-0", none⟩] :
      List Target).length = 3 := rfl
  have hs : studentEntries [⟨"test", some r1⟩, ⟨"gold", some r2⟩, ⟨"coal-0", none⟩] =
      [("test", generateJSONFile r1), ("gold", generateJSONFile r2)] := by
    simp only [studentEntries, hlen]
    rfl
  have hmain : generateJSON [("bob", none),
      ("alice", some [⟨"test", some r1⟩, ⟨"gold", some r2⟩, ⟨"coal-0", none⟩])] =
      JVal.jobj (objInsert (objInsert [] "alice"
        (JVal.jobj (studentEntries
          [⟨"test", some r1⟩, ⟨"gold", some r2⟩, ⟨"coal-0", none⟩])))
        "bob" (JVal.jobj [])) := rfl
  rw [hmain, hs]
  rfl

/-- C9 witness: the amended theorem applied to the concrete stored run
results. -/
theorem generateJSON_order_and_omission_witness :
    generateJSON [("bob", none),
      ("alice", some [⟨"test", some runResultA⟩, ⟨"gold", some runResultB⟩,
                      ⟨"coal-0", none⟩])] =
    JVal.jobj [("alice", JVal.jobj [("test", generateJSONFile runResultA),
                                    ("gold", generateJSONFile runResultB)]),
               ("bob", JVal.jobj [])] :=
  generateJSON_order_and_omission runResultA runResultB

/-- C10: while a clicked target runs, every other cell or header that
was runnable (class def) is switched to disabled (class dis, def
removed); when the completion callback fires, the clicked cell is
marked fin and every disabled cell is switched back to def - so each
cell runnable at the start of the run, other than the clicked one, is
runnable again at its end. -/
theorem makeTarget_disables_then_restores (cells : List Cell) (i j : Nat) (cj : Cell)
    (hne : j ≠ i) (hj : cells.get? j = some cj) (hdef : cj.hasDef = true) :
    (clickTarget cells i).get? j = some { cj with hasDef := false, hasDis := true } ∧
    (completeTarget (clickTarget cells i) i).get? j =
      some { cj with hasDef := true, hasDis := false } ∧
    ∀ ci, cells.get? i = some ci →
      ∃ c, (completeTarget (clickTarget cells i) i).get? i = some c ∧ c.hasFin = true := by
  have hclick : (clickTarget cells i).get? j =
      some { cj with hasDef := false, hasDis := true } := by
    unfold clickTarget
    rw [List.get?_map, setAt_get_ne cells i j _ hne, hj]
    simp [disableCell, hdef]
  refine ⟨hclick, ?_, ?_⟩
  · unfold completeTarget
    rw [List.get?_map, setAt_get_ne _ i j _ hne, hclick]
    simp [enableCell]
  · intro ci hci
    unfold completeTarget
    rw [List.get?_map, setAt_get_eq]
    unfold clickTarget
    rw [List.get?_map, setAt_get_eq, hci]
    cases hdis : (disableCell { ci with hasDef := false }).hasDis <;>
      simp [enableCell, hdis]

/-- C10 witness: the theorem applied to a concrete three-cell table,
clicking cell 0 and watching cell 1. -/
theorem makeTarget_disables_then_restores_witness :
    (clickTarget cellsEx 0).get? 1 = some ⟨false, true, false⟩ ∧
    (completeTarget (clickTarget cellsEx 0) 0).get? 1 = some ⟨true, false, false⟩ ∧
    ∀ ci, cellsEx.get? 0 = some ci →
      ∃ c, (completeTarget (clickTarget cellsEx 0) 0).get? 0 = some c ∧
        c.hasFin = true :=
  makeTarget_disables_then_restores cellsEx 0 1 ⟨true, false, false⟩
    (by decide) rfl rfl

end Cpo
